import Mathlib

/-
Verification of the Cortex-CxC core against its specification.

This file gives a shallow embedding, in Lean 4, of the parts of the
backend that the checked claims talk about:

  * backend/services/vector_store.py   (VectorStoreService)
  * backend/api/chats.py               (conversation delete endpoint)
  * backend/services/normalizer.py     (message cleaning / normalisation)
  * backend/services/dimensionality_reducer.py (UMAP hyperparameters)
  * backend/services/embedder.py       (prepare_text_for_embedding)
  * backend/api/ingest.py              (error handling of the ingest handler)

Modelling conventions:

  * Python dicts that are used as ordered maps (the vector store `_data`)
    are modelled as association lists in insertion order; dict assignment
    updates an existing key in place and appends a fresh key at the end,
    and `pop` removes the unique entry of a key.
  * Machine floats are idealised as rational inputs and real-valued
    scores; `np.sqrt` becomes `Real.sqrt`.
  * Fallible Python code is modelled with `Except`; an uncaught Python
    exception is an `Except.error` value.
  * `np.argsort` (quicksort kind) on small arrays performs an insertion
    sort, which keeps index order on ties; the sorting step is therefore
    modelled with the stable `List.insertionSort` on the descending score
    relation.
  * Wall-clock fields (timestamps, processing_time_ms) are not modelled;
    no claim mentions them.
-/

/-- Python `len` / slicing on strings counts code points; Lean `String`
positions count bytes, so the character-level operations below work on
`String.data` (they also reduce inside the kernel, unlike the built-in
position-based ones). This is the length of a string in characters. -/
def strLen (s : String) : ℕ :=
  s.data.length

/-- Python slice `s[:n]`. -/
def strTake (s : String) (n : ℕ) : String :=
  String.mk (s.data.take n)

/-- Python `s.lower()`. -/
def strLower (s : String) : String :=
  String.mk (s.data.map Char.toLower)

/-- Python `s.strip()`: drop leading and trailing whitespace. -/
def strTrim (s : String) : String :=
  String.mk (((s.data.dropWhile Char.isWhitespace).reverse.dropWhile
    Char.isWhitespace).reverse)

/-- Python `s.endswith(suffix)`. -/
def strEndsWith (s suffix : String) : Bool :=
  s.data.drop (s.data.length - suffix.data.length) == suffix.data

/-- Metadata attached to a vector-store entry. The code treats it as an
opaque JSON object that is stored and returned verbatim; no claim inspects
its contents, so it is modelled as a list of string key-value pairs. -/
abbrev Metadata := List (String × String)

/-- One value of the vector store mapping: `{document, embedding, metadata}`
(vector_store.py, module docstring and `upsert_conversation`). -/
structure StoreEntry where
  document : String
  embedding : List ℚ
  metadata : Metadata
deriving DecidableEq, Repr

/-- State of `VectorStoreService`: the in-memory dict `_data` plus the JSON
snapshot file at `store_path`. `disk = none` models an absent or corrupt
file (which `_load` reads as `{}`); `disk = some m` models a file holding
the JSON object `m`. -/
structure VectorStore where
  data : List (String × StoreEntry)
  disk : Option (List (String × StoreEntry))
deriving DecidableEq, Repr

namespace VectorStoreService

/-- Python dict assignment `d[k] = v` on an insertion-ordered dict:
update in place if the key exists, otherwise append at the end. -/
def dictInsert (k : String) (v : StoreEntry) :
    List (String × StoreEntry) → List (String × StoreEntry)
  | [] => [(k, v)]
  | (k2, v2) :: rest =>
    if k2 = k then (k, v) :: rest else (k2, v2) :: dictInsert k v rest

/-- Python `d.pop(k, None)`: remove the entry with key `k` (if any). -/
def dictRemove (k : String) :
    List (String × StoreEntry) → List (String × StoreEntry)
  | [] => []
  | (k2, v2) :: rest =>
    if k2 = k then rest else (k2, v2) :: dictRemove k rest

/-- Membership test `conversation_id in _data` (as the Bool the code
branches on: `pop(...) is not None`). -/
def hasKey (s : List (String × StoreEntry)) (k : String) : Bool :=
  s.any (fun p => p.1 == k)

/-- Model of `VectorStoreService._load`: a missing or corrupt snapshot file
yields the empty store, otherwise the parsed JSON object. JSON
serialisation of the store is faithful (`json.dump` / `json.load` round
trip), so the file contents are modelled by the mapping itself. -/
def load_snapshot : Option (List (String × StoreEntry)) → List (String × StoreEntry)
  | none => []
  | some m => m

/-- Model of `VectorStoreService.upsert_conversation` (vector_store.py
lines 76-90): mutate the dict, then `_save` writes the whole dict to the
snapshot file. -/
def upsert_conversation (s : VectorStore) (cid : String) (doc : String)
    (emb : List ℚ) (meta : Metadata) : VectorStore :=
  let d := dictInsert cid ⟨doc, emb, meta⟩ s.data
  ⟨d, some d⟩

/-- Model of `VectorStoreService.delete_conversation` (vector_store.py
lines 92-98): pop the key; `_save` runs only when something was removed.
Returns the new state together with the `removed` Bool the method returns. -/
def delete_conversation (s : VectorStore) (cid : String) : VectorStore × Bool :=
  if hasKey s.data cid then
    let d := dictRemove cid s.data
    (⟨d, some d⟩, true)
  else
    (s, false)

end VectorStoreService

/-- A mutation of the vector index: the two mutating operations of the
service. -/
inductive StoreMutation where
  | upsert (cid : String) (doc : String) (emb : List ℚ) (meta : Metadata)
  | del (cid : String)
deriving DecidableEq, Repr

/-- Apply a mutation to the store state. -/
def applyMutation (s : VectorStore) : StoreMutation → VectorStore
  | .upsert cid doc emb meta => VectorStoreService.upsert_conversation s cid doc emb meta
  | .del cid => (VectorStoreService.delete_conversation s cid).1

/-- A mutation is successful when it changed the store: upserts always
succeed; a delete succeeds exactly when the key was present (the method
returned `True`). -/
def mutationOk (s : VectorStore) : StoreMutation → Prop
  | .upsert _ _ _ _ => True
  | .del cid => VectorStoreService.hasKey s.data cid = true

/-- Dot product of two float vectors (`matrix @ query`, one row). Numpy
requires equal lengths; within `search` this is guarded by the dimension
checks below, and `zipWith` agrees with numpy on equal-length inputs. -/
def dotQ (a b : List ℚ) : ℚ :=
  (List.zipWith (fun x y => x * y) a b).sum

/-- Squared Euclidean norm of a float vector. -/
def normSqQ (v : List ℚ) : ℚ :=
  dotQ v v

/-- Euclidean norm (`np.linalg.norm`), idealised over the reals. -/
noncomputable def normR (v : List ℚ) : ℝ :=
  Real.sqrt (normSqQ v)

/-- Cosine-similarity score of one stored vector against the query,
as computed by `VectorStoreService.search` (vector_store.py lines 132-138):
`dot / (norm_row * norm_query)` where a zero denominator is first replaced
by `1e-10`. -/
noncomputable def score (v q : List ℚ) : ℝ :=
  let denom := normR v * normR q
  if denom = 0 then (dotQ v q : ℝ) / (1 / 10 ^ 10) else (dotQ v q : ℝ) / denom

/-- One element of the list returned by `search`:
`{conversation_id, score, content, metadata}`. -/
structure SearchResult where
  conversation_id : String
  score : ℝ
  content : String
  metadata : Metadata

/-- Descending-score relation used to model `np.argsort(-scores)`. -/
def scoreGe (a b : SearchResult) : Prop :=
  b.score ≤ a.score

noncomputable instance : DecidableRel scoreGe :=
  fun a b => inferInstanceAs (Decidable (b.score ≤ a.score))

instance : IsTotal SearchResult scoreGe :=
  ⟨fun a b => (le_total b.score a.score).imp (fun h => h) (fun h => h)⟩

instance : IsTrans SearchResult scoreGe :=
  ⟨fun _ _ _ hab hbc => le_trans hbc hab⟩

/-- Errors that `search` can raise (uncaught Python exceptions):
`raggedStore` is the `np.array` failure on rows of differing lengths,
`dimensionMismatch` the `matmul` ValueError on a query whose dimension
differs from the rows (the DIMENSION_MISMATCH case of the spec taxonomy). -/
inductive SearchError where
  | raggedStore
  | dimensionMismatch
deriving DecidableEq, Repr

namespace VectorStoreService

/-- Model of the result-collection loop of `search` (vector_store.py lines
143-157): walk the score-sorted entries, skip scores strictly below the
threshold, append the rest, and stop as soon as the appended count has
reached `max_results`; `acc` is `len(results)` so far. -/
noncomputable def searchLoop (θ : ℝ) (k : ℕ) :
    ℕ → List SearchResult → List SearchResult
  | _, [] => []
  | acc, r :: rs =>
    if r.score < θ then searchLoop θ k acc rs
    else if k ≤ acc + 1 then [r]
    else r :: searchLoop θ k (acc + 1) rs

/-- Model of `VectorStoreService.search` (vector_store.py lines 100-159).
An empty store returns `[]` before anything else. Otherwise numpy raises
on a ragged embedding matrix (`np.array`) or on a query whose dimension
differs from the rows (`matrix @ query`), before producing any result.
On success the entries are scored in store order, sorted by descending
score (stable, as `np.argsort` is on these inputs), filtered by the
threshold and capped by `max_results`. -/
noncomputable def search (data : List (String × StoreEntry)) (q : List ℚ)
    (k : ℕ) (θ : ℝ) : Except SearchError (List SearchResult) :=
  match data with
  | [] => .ok []
  | (c0, e0) :: rest =>
    if ((c0, e0) :: rest).all
        (fun p => p.2.embedding.length == e0.embedding.length) then
      if q.length = e0.embedding.length then
        .ok (searchLoop θ k 0
          (List.insertionSort scoreGe
            (((c0, e0) :: rest).map
              (fun p => ⟨p.1, score p.2.embedding q, p.2.document, p.2.metadata⟩))))
      else .error .dimensionMismatch
    else .error .raggedStore

end VectorStoreService

/-- Row of the `conversations` table (models.py, class Conversation).
Timestamp columns are not modelled (no claim mentions them). -/
structure ConversationRow where
  id : String
  title : String
  summary : String
  topics : List String
  cluster_id : Option ℤ
  cluster_name : Option String
  message_count : ℕ
deriving DecidableEq, Repr

/-- Row of the `messages` table (models.py, class Message). -/
structure MessageRow where
  id : String
  conversation_id : String
  role : String
  content : String
  sequence_number : ℤ
deriving DecidableEq, Repr

/-- Row of the `embeddings` table (models.py, class Embedding). The
animation columns are collapsed into the two vectors; no claim reads them
individually. -/
structure EmbeddingRow where
  conversation_id : String
  embedding_384d : List ℚ
  vector_3d : List ℚ
  magnitude : ℚ
deriving DecidableEq, Repr

/-- The relational metadata store. -/
structure DBState where
  conversations : List ConversationRow
  messages : List MessageRow
  embeddings : List EmbeddingRow
deriving DecidableEq, Repr

/-- Combined state the delete endpoint acts on: the database plus the
vector index singleton. -/
structure SystemState where
  db : DBState
  store : VectorStore
deriving DecidableEq, Repr

/-- An HTTPException raised by an endpoint. -/
structure HttpError where
  status : ℕ
  detail : String
deriving DecidableEq, Repr

namespace Chats

/-- Model of the DELETE `/api/chats/{id}` handler (chats.py lines 159-187).
A missing id raises HTTPException 404. Otherwise `db.delete(conversation)`
removes the row and, through the ORM cascade `all, delete-orphan` declared
on both relationships (models.py lines 47-48), the Messages and the
Embedding of that conversation. The handler contains no call into the
vector store, so the `store` component is returned unchanged. -/
def delete_conversation (st : SystemState) (cid : String) :
    Except HttpError SystemState :=
  if st.db.conversations.any (fun c => c.id == cid) then
    .ok
      { db :=
          { conversations := st.db.conversations.filter (fun c => !(c.id == cid))
            messages := st.db.messages.filter (fun m => !(m.conversation_id == cid))
            embeddings := st.db.embeddings.filter (fun e => !(e.conversation_id == cid)) }
        store := st.store }
  else
    .error ⟨404, "Conversation " ++ cid ++ " not found"⟩

end Chats

/-- A parsed message as handed to the normaliser: the dict fields read by
`_clean_message` via `.get` with defaults (normalizer.py lines 94-96). An
entry that is not a dict, or whose content is not a string, is cleaned to
`None` by the code exactly as an empty content is; such inputs are
represented by empty content. -/
structure RawMessage where
  role : String
  content : String
  sequence_number : ℤ
deriving DecidableEq, Repr

/-- A cleaned message (normalizer.py lines 113-117). -/
structure CleanMessage where
  role : String
  content : String
  sequence_number : ℤ
deriving DecidableEq, Repr

/-- Helper splitting a character list into its maximal whitespace-free
runs; `cur` is the current run, reversed. -/
def wordsAux : List Char → List Char → List (List Char)
  | cur, [] => if cur = [] then [] else [cur.reverse]
  | cur, c :: rest =>
    if c.isWhitespace then
      if cur = [] then wordsAux [] rest else cur.reverse :: wordsAux [] rest
    else wordsAux (c :: cur) rest

/-- Model of `re.sub(r"\s+", " ", content).strip()`: collapse every
whitespace run to one space and drop leading and trailing whitespace. -/
def collapseWs (s : String) : String :=
  String.mk (List.intercalate [' '] (wordsAux [] s.data))

/-- Model of `_clean_message` (normalizer.py lines 81-117): lower-case the
role and reject roles outside the vocabulary; collapse whitespace in the
content and reject messages that are empty after cleaning; keep the
sequence number exactly as it arrived. -/
def cleanMessage (m : RawMessage) : Option CleanMessage :=
  let role := strLower m.role
  if role = "user" ∨ role = "assistant" ∨ role = "system" then
    let content := collapseWs m.content
    if content = "" then none
    else some ⟨role, content, m.sequence_number⟩
  else none

/-- Title derivation from the first user message (normalizer.py lines
137-158). -/
def titleFromFirstUser (msgs : List CleanMessage) : String :=
  match msgs.find? (fun m => m.role == "user") with
  | none => "Untitled Conversation"
  | some m =>
    let content := collapseWs m.content
    if 50 < strLen content then strTake content 47 ++ "..." else content

/-- Model of `_generate_title` (normalizer.py lines 120-158): keep a
non-empty vendor title other than the sentinel (truncated to 200
characters), otherwise derive from the first user message. -/
def generate_title (existingTitle : Option String) (msgs : List CleanMessage) : String :=
  match existingTitle with
  | some t =>
    if t ≠ "" then
      let t2 := strTrim t
      if t2 ≠ "" ∧ t2 ≠ "Untitled" then strTake t2 200 else titleFromFirstUser msgs
    else titleFromFirstUser msgs
  | none => titleFromFirstUser msgs

/-- Normalised conversation (normalizer.py lines 65-76). The timestamp and
the original-title metadata fields are not modelled; no claim reads them. -/
structure NormalizedConversation where
  title : String
  messages : List CleanMessage
  message_count : ℕ
  user_message_count : ℕ
  assistant_message_count : ℕ
deriving DecidableEq, Repr

/-- Model of `normalize_conversation` (normalizer.py lines 16-78): clean
every message, fail (ValueError) on an empty input list or when nothing
survives cleaning, then assemble the normalised record. -/
def normalize_conversation (parsedTitle : Option String)
    (messages : List RawMessage) : Except String NormalizedConversation :=
  if messages = [] then
    .error "Cannot normalize conversation: messages list is empty"
  else
    let cleaned := messages.filterMap cleanMessage
    if cleaned = [] then
      .error "No valid messages after cleaning"
    else
      .ok
        { title := generate_title parsedTitle cleaned
          messages := cleaned
          message_count := cleaned.length
          user_message_count := (cleaned.filter (fun m => m.role == "user")).length
          assistant_message_count := (cleaned.filter (fun m => m.role == "assistant")).length }

/-- Model of `fit_umap_model` (dimensionality_reducer.py lines 31-93),
restricted to a rectangular `m × dim` input (a ragged input fails earlier,
at `np.array` / the `ndim` check, and no claim concerns it). The returned
pair is the `n_neighbors` hyperparameter (line 69, with the default
`UMAP_N_NEIGHBORS = 15`) and whether the `init` method is `"random"`
rather than `"spectral"` (line 73). -/
def fit_umap_model (m dim : ℕ) : Except String (ℕ × Bool) :=
  if m = 0 then .error "Cannot fit UMAP: embeddings list is empty"
  else if dim ≠ 384 ∧ dim ≠ 768 then .error "Expected 384D or 768D embeddings"
  else if m < 2 then .error "Need at least 2 embeddings to fit UMAP"
  else
    let n := min 15 (max 2 (m - 1))
    .ok (n, !(decide (n + 1 < m)))

/-- Message-content gathering loop of `prepare_text_for_embedding`
(embedder.py lines 384-396): concatenate whole messages while they fit in
the remaining budget; at the first message that does not fit, include its
truncated front plus an ellipsis only when strictly more than 100
characters of budget remain, and stop. `cur` is `current_length`. -/
def gatherContent (budget : ℕ) : List String → ℕ → List String
  | [], _ => []
  | c :: rest, cur =>
    if budget < cur + strLen c then
      if 100 < budget - cur then [strTake c (budget - cur) ++ "..."] else []
    else c :: gatherContent budget rest (cur + strLen c)

/-- Model of `prepare_text_for_embedding` (embedder.py lines 358-401).
The `messages` argument is the list of `content` fields, the only field
the function reads. Parts are joined with a blank line; message contents
with single spaces. -/
def prepare_text_for_embedding (title summary : String) (topics : List String)
    (messages : List String) (maxMessageLength : ℕ) : String :=
  let parts :=
    (if title ≠ "" then ["Title: " ++ title] else []) ++
    (if topics ≠ [] then ["Topics: " ++ ", ".intercalate topics] else []) ++
    (if summary ≠ "" then ["Summary: " ++ summary] else []) ++
    (if messages ≠ [] then
      let mc := gatherContent maxMessageLength messages 0
      if mc ≠ [] then ["Content: " ++ " ".intercalate mc] else []
     else [])
  "\n\n".intercalate parts

/-- Gathering loop as the specification words it, with the inclusion
cutoff as a parameter: `strict = true` includes a truncated final message
when strictly more than 100 characters of budget remain, `strict = false`
(the claim as stated) already when at least 100 remain. -/
def gatherContentSpec (strict : Bool) (budget : ℕ) : List String → ℕ → List String
  | [], _ => []
  | c :: rest, cur =>
    if budget < cur + strLen c then
      if (if strict then 100 < budget - cur else 100 ≤ budget - cur) then
        [strTake c (budget - cur) ++ "..."]
      else []
    else c :: gatherContentSpec strict budget rest (cur + strLen c)

/-- Modelled from the specification wording of claim C7 (spec section 4.5):
compose, in order, the Title line, the Topics line when topics are
non-empty, the Summary line when non-empty, and a Content section of
message contents gathered under the budget; the partial-final-message
cutoff is the `strict` parameter. -/
def prepareTextSpec (strict : Bool) (title summary : String) (topics : List String)
    (messages : List String) (maxMessageLength : ℕ) : String :=
  let parts :=
    ["Title: " ++ title] ++
    (if topics ≠ [] then ["Topics: " ++ ", ".intercalate topics] else []) ++
    (if summary ≠ "" then ["Summary: " ++ summary] else []) ++
    (let mc := gatherContentSpec strict maxMessageLength messages 0
     if mc ≠ [] then ["Content: " ++ " ".intercalate mc] else [])
  "\n\n".intercalate parts

/-- Strict UTF-8 validity of a byte sequence, as checked by Python
`bytes.decode("utf-8")` (table from the Unicode standard: continuation
ranges, no overlongs, no surrogates, max U+10FFFF). -/
def validUtf8 : List ℕ → Bool
  | [] => true
  | b :: rest =>
    if b ≤ 127 then validUtf8 rest
    else if 194 ≤ b ∧ b ≤ 223 then
      match rest with
      | c1 :: r => (128 ≤ c1 ∧ c1 ≤ 191 : Bool) && validUtf8 r
      | [] => false
    else if b = 224 then
      match rest with
      | c1 :: c2 :: r =>
        (160 ≤ c1 ∧ c1 ≤ 191 : Bool) && (128 ≤ c2 ∧ c2 ≤ 191 : Bool) && validUtf8 r
      | _ => false
    else if (225 ≤ b ∧ b ≤ 236) ∨ b = 238 ∨ b = 239 then
      match rest with
      | c1 :: c2 :: r =>
        (128 ≤ c1 ∧ c1 ≤ 191 : Bool) && (128 ≤ c2 ∧ c2 ≤ 191 : Bool) && validUtf8 r
      | _ => false
    else if b = 237 then
      match rest with
      | c1 :: c2 :: r =>
        (128 ≤ c1 ∧ c1 ≤ 159 : Bool) && (128 ≤ c2 ∧ c2 ≤ 191 : Bool) && validUtf8 r
      | _ => false
    else if b = 240 then
      match rest with
      | c1 :: c2 :: c3 :: r =>
        (144 ≤ c1 ∧ c1 ≤ 191 : Bool) && (128 ≤ c2 ∧ c2 ≤ 191 : Bool) &&
          (128 ≤ c3 ∧ c3 ≤ 191 : Bool) && validUtf8 r
      | _ => false
    else if 241 ≤ b ∧ b ≤ 243 then
      match rest with
      | c1 :: c2 :: c3 :: r =>
        (128 ≤ c1 ∧ c1 ≤ 191 : Bool) && (128 ≤ c2 ∧ c2 ≤ 191 : Bool) &&
          (128 ≤ c3 ∧ c3 ≤ 191 : Bool) && validUtf8 r
      | _ => false
    else if b = 244 then
      match rest with
      | c1 :: c2 :: c3 :: r =>
        (128 ≤ c1 ∧ c1 ≤ 143 : Bool) && (128 ≤ c2 ∧ c2 ≤ 191 : Bool) &&
          (128 ≤ c3 ∧ c3 ≤ 191 : Bool) && validUtf8 r
      | _ => false
    else false

/-- Response body of the single-file ingest endpoint
(schemas.IngestResponse, as constructed in ingest.py). The wall-clock
`processing_time_ms` field is not modelled. -/
structure IngestResponse where
  success : Bool
  conversation_id : Option String
  title : Option String
  message_count : ℕ
  error : Option String
deriving DecidableEq, Repr

/-- A Python exception escaping the try block of the ingest handler:
either a FastAPI HTTPException carrying a status, or any other exception
with its `str(e)` text. -/
inductive PyExc where
  | httpException (status : ℕ) (detail : String)
  | other (msg : String)
deriving DecidableEq, Repr

/-- What the HTTP framework sends for the handler outcome: an error status
from a raised HTTPException, or a 200 response with an `IngestResponse`
body (the endpoint declares `response_model=IngestResponse`, so returning
a body means HTTP 200). -/
inductive HandlerResult where
  | httpError (status : ℕ) (detail : String)
  | ok (resp : IngestResponse)
deriving DecidableEq, Repr

/-- Model of the control flow of `ingest_single_chat` (ingest.py lines
52-273). Inside the try block: a non-`.html` filename raises
HTTPException 400; a body that is not valid UTF-8 makes `content.decode`
raise UnicodeDecodeError; otherwise the remainder of the try block runs,
and `pipeline` stands for its outcome (parse, per-conversation processing,
persistence - any exception it raises is caught by the same handlers).
The `except HTTPException: raise` clause re-raises HTTP errors, while the
`except Exception` clause (lines 264-273) swallows every other exception
and returns a normal `IngestResponse` with `success=False` and
`error=str(e)` - an HTTP 200, not a 500. -/
def ingest_single_chat (filename : String) (body : List ℕ)
    (pipeline : Except PyExc IngestResponse) : HandlerResult :=
  let tried : Except PyExc IngestResponse :=
    if !(strEndsWith filename ".html") then
      .error (.httpException 400 "Only HTML files are accepted")
    else if !(validUtf8 body) then
      .error (.other "UnicodeDecodeError")
    else
      pipeline
  match tried with
  | .ok r => .ok r
  | .error (.httpException s d) => .httpError s d
  | .error (.other m) =>
    .ok { success := false, conversation_id := none, title := none,
          message_count := 0, error := some m }

section SearchLemmas

variable {θ : ℝ} {k : ℕ}

lemma searchLoop_sublist :
    ∀ (l : List SearchResult) (acc : ℕ),
      List.Sublist (VectorStoreService.searchLoop θ k acc l) l := by
  intro l
  induction l with
  | nil => intro acc; simp [VectorStoreService.searchLoop]
  | cons r rs ih =>
    intro acc
    simp only [VectorStoreService.searchLoop]
    split_ifs with h1 h2
    · exact (ih acc).cons r
    · exact (List.nil_sublist rs).cons₂ r
    · exact (ih (acc + 1)).cons₂ r

lemma searchLoop_threshold :
    ∀ (l : List SearchResult) (acc : ℕ) (r : SearchResult),
      r ∈ VectorStoreService.searchLoop θ k acc l → θ ≤ r.score := by
  intro l
  induction l with
  | nil => intro acc r hr; simp [VectorStoreService.searchLoop] at hr
  | cons x rs ih =>
    intro acc r hr
    simp only [VectorStoreService.searchLoop] at hr
    split_ifs at hr with h1 h2
    · exact ih acc r hr
    · rw [List.mem_singleton] at hr
      subst hr
      exact le_of_not_lt h1
    · rcases List.mem_cons.mp hr with rfl | hr
      · exact le_of_not_lt h1
      · exact ih (acc + 1) r hr

lemma searchLoop_length :
    ∀ (l : List SearchResult) (acc : ℕ), acc < k →
      (VectorStoreService.searchLoop θ k acc l).length ≤ k - acc := by
  intro l
  induction l with
  | nil => intro acc h; simp [VectorStoreService.searchLoop]
  | cons x rs ih =>
    intro acc hacc
    simp only [VectorStoreService.searchLoop]
    split_ifs with h1 h2
    · exact ih acc hacc
    · simp only [List.length_singleton]
      omega
    · have h3 : acc + 1 < k := by omega
      have := ih (acc + 1) h3
      simp only [List.length_cons]
      omega

end SearchLemmas

lemma sumSq_nonneg (v : List ℚ) :
    0 ≤ (List.zipWith (fun x y => x * y) v v).sum := by
  induction v with
  | nil => simp
  | cons a v ih =>
    rw [List.zipWith_cons_cons, List.sum_cons]
    exact add_nonneg (mul_self_nonneg a) ih

lemma sumSq_eq_zero (v : List ℚ)
    (h : (List.zipWith (fun x y => x * y) v v).sum = 0) :
    ∀ x ∈ v, x = 0 := by
  induction v with
  | nil => simp
  | cons a v ih =>
    rw [List.zipWith_cons_cons, List.sum_cons] at h
    have ha : a * a = 0 := le_antisymm (by nlinarith [sumSq_nonneg v]) (mul_self_nonneg a)
    have hv : (List.zipWith (fun x y => x * y) v v).sum = 0 := by nlinarith [mul_self_nonneg a]
    intro x hx
    rcases List.mem_cons.mp hx with rfl | hx
    · exact mul_self_eq_zero.mp ha
    · exact ih hv x hx

lemma dotQ_zero_left (v q : List ℚ) (h : ∀ x ∈ v, x = 0) : dotQ v q = 0 := by
  unfold dotQ
  induction v generalizing q with
  | nil => simp
  | cons a v ih =>
    cases q with
    | nil => simp
    | cons b q =>
      rw [List.zipWith_cons_cons, List.sum_cons]
      rw [h a (List.mem_cons_self a v), ih q (fun x hx => h x (List.mem_cons_of_mem a hx))]
      ring

lemma dotQ_zero_right (v q : List ℚ) (h : ∀ x ∈ q, x = 0) : dotQ v q = 0 := by
  unfold dotQ
  induction v generalizing q with
  | nil => simp
  | cons a v ih =>
    cases q with
    | nil => simp
    | cons b q =>
      rw [List.zipWith_cons_cons, List.sum_cons]
      rw [h b (List.mem_cons_self b q), ih q (fun x hx => h x (List.mem_cons_of_mem b hx))]
      ring

/-- A zero-norm vector on either side forces a zero score: the dot product
is already zero, so both the real quotient and the epsilon-guarded
quotient vanish. -/
lemma score_of_zero_norm (v q : List ℚ)
    (h : normSqQ v = 0 ∨ normSqQ q = 0) : score v q = 0 := by
  have hdot : dotQ v q = 0 := by
    rcases h with h | h
    · exact dotQ_zero_left v q (sumSq_eq_zero v h)
    · exact dotQ_zero_right v q (sumSq_eq_zero q h)
  simp only [score]
  split_ifs <;> simp [hdot]

lemma score_zero_zero : score [(0 : ℚ)] [0] = 0 :=
  score_of_zero_norm _ _ (Or.inl (by norm_num [normSqQ, dotQ]))

lemma score_one_one : score [(1 : ℚ)] [1] = 1 := by
  simp [score, normR, normSqQ, dotQ]

lemma score_one_zero : score [(1 : ℚ)] [0] = 0 :=
  score_of_zero_norm _ _ (Or.inr (by norm_num [normSqQ, dotQ]))

/-- Shared inversion: when every stored vector has the dimension of the
query, `search` succeeds and returns the sorted, filtered, capped list. -/
lemma search_eq_ok (c0 : String) (e0 : StoreEntry)
    (rest : List (String × StoreEntry)) (q : List ℚ) (k : ℕ) (θ : ℝ)
    (hdim : ∀ p ∈ (c0, e0) :: rest, p.2.embedding.length = q.length) :
    VectorStoreService.search ((c0, e0) :: rest) q k θ =
      .ok (VectorStoreService.searchLoop θ k 0
        (List.insertionSort scoreGe (((c0, e0) :: rest).map
          (fun p => ⟨p.1, score p.2.embedding q, p.2.document, p.2.metadata⟩)))) := by
  have he0 : e0.embedding.length = q.length := hdim (c0, e0) (List.mem_cons_self _ _)
  have hall : ((c0, e0) :: rest).all
      (fun p => p.2.embedding.length == e0.embedding.length) = true := by
    rw [List.all_eq_true]
    intro p hp
    rw [beq_iff_eq, hdim p hp, he0]
  have hq : q.length = e0.embedding.length := he0.symm
  simp only [VectorStoreService.search, hall, if_true, hq, if_pos]

/-- Lexicographic strict order on character lists: the "id lexical order"
of claim C1. -/
def lexLtB : List Char → List Char → Bool
  | [], [] => false
  | [], _ :: _ => true
  | _ :: _, [] => false
  | a :: as, b :: bs => if a < b then true else if b < a then false else lexLtB as bs

/-- Ordering asserted by claim C1: strictly decreasing scores, ties broken
by lexical order of the conversation id. -/
def strictDescIdLex (l : List SearchResult) : Prop :=
  l.Pairwise (fun a b => b.score < a.score ∨
    (a.score = b.score ∧ lexLtB a.conversation_id.data b.conversation_id.data = true))

/-- Claim C1, amended: for every store state and query, a successful
vector-index search returns its results in non-increasing score order
(ties keep the store insertion order produced by the stable sort, not the
id lexical order), every result scores at least the `min_score` threshold
(strictly smaller scores are excluded), and the post-filter list is capped
at `k = max_results` items (for the `k ≥ 1` range the spec gives). -/
theorem C1_search_order_filter_cap (data : List (String × StoreEntry))
    (q : List ℚ) (k : ℕ) (θ : ℝ) (l : List SearchResult) (hk : 1 ≤ k)
    (h : VectorStoreService.search data q k θ = .ok l) :
    List.Sorted scoreGe l ∧ (∀ r ∈ l, θ ≤ r.score) ∧ l.length ≤ k := by
  cases data with
  | nil =>
    have h0 : VectorStoreService.search ([] : List (String × StoreEntry)) q k θ =
        .ok ([] : List SearchResult) := rfl
    rw [h0, Except.ok.injEq] at h
    subst h
    refine ⟨by simp, by simp, by simp⟩
  | cons p rest =>
    obtain ⟨c0, e0⟩ := p
    simp only [VectorStoreService.search] at h
    split_ifs at h with hall hdim
    · rw [Except.ok.injEq] at h
      subst h
      refine ⟨?_, ?_, ?_⟩
      · exact List.Pairwise.sublist (searchLoop_sublist _ 0)
          (List.sorted_insertionSort scoreGe _)
      · intro r hr
        exact searchLoop_threshold _ 0 r hr
      · have hlen := searchLoop_length (θ := θ) (k := k)
          (List.insertionSort scoreGe (((c0, e0) :: rest).map
            (fun p => ⟨p.1, score p.2.embedding q, p.2.document, p.2.metadata⟩)))
          0 (by omega)
        omega

/-- Witness: a concrete one-entry store with a zero query vector satisfies
the amended search contract at k = 1, threshold 0. -/
theorem C1_search_order_filter_cap_witness :
    List.Sorted scoreGe [⟨"a", 0, "d", []⟩] ∧
    (∀ r ∈ [(⟨"a", 0, "d", []⟩ : SearchResult)], (0 : ℝ) ≤ r.score) ∧
    ([(⟨"a", 0, "d", []⟩ : SearchResult)].length ≤ 1) :=
  C1_search_order_filter_cap [("a", ⟨"d", [0], []⟩)] [0] 1 0 [⟨"a", 0, "d", []⟩]
    (by decide)
    (by
      simp [VectorStoreService.search, VectorStoreService.searchLoop,
        List.insertionSort, List.orderedInsert, score_zero_zero])

/-- Counterexample to claim C1 as stated: two entries with identical
embeddings produce tied scores; the code returns them in store insertion
order ("b" before "a"), which is neither strictly decreasing nor the id
lexical order. -/
theorem C1_counterexample :
    VectorStoreService.search [("b", ⟨"db", [1], []⟩), ("a", ⟨"da", [1], []⟩)]
      [1] 10 0 =
      .ok [⟨"b", 1, "db", []⟩, ⟨"a", 1, "da", []⟩] ∧
    ¬ strictDescIdLex [⟨"b", 1, "db", []⟩, ⟨"a", 1, "da", []⟩] := by
  constructor
  · simp [VectorStoreService.search, VectorStoreService.searchLoop,
      List.insertionSort, List.orderedInsert, scoreGe, score_one_one]
    norm_num
  · intro hord
    rcases (List.pairwise_cons.mp hord).1 _ (List.mem_singleton_self _) with
      h | ⟨_, hlex⟩
    · exact absurd h (lt_irrefl (1 : ℝ))
    · exact absurd hlex (by decide)

/-- Claim C2: a query whose dimension differs from the corpus-wide
dimension D makes the search fail with the dimension-mismatch error (the
numpy matmul ValueError, surfaced by the framework as a 500) instead of
computing any similarity. -/
theorem C2_dimension_mismatch (data : List (String × StoreEntry)) (q : List ℚ)
    (k : ℕ) (θ : ℝ) (D : ℕ) (hne : data ≠ [])
    (hD : ∀ p ∈ data, p.2.embedding.length = D) (hq : q.length ≠ D) :
    VectorStoreService.search data q k θ = .error .dimensionMismatch := by
  cases data with
  | nil => exact absurd rfl hne
  | cons p rest =>
    obtain ⟨c0, e0⟩ := p
    have he0 : e0.embedding.length = D := hD (c0, e0) (List.mem_cons_self _ _)
    have hall : ((c0, e0) :: rest).all
        (fun p => p.2.embedding.length == e0.embedding.length) = true := by
      rw [List.all_eq_true]
      intro p hp
      rw [beq_iff_eq, hD p hp, he0]
    have hd2 : ¬ (q.length = e0.embedding.length) := by
      rw [he0]
      exact hq
    simp only [VectorStoreService.search, hall, if_true, hd2, if_false]

/-- Witness: a one-entry store of 2-dimensional vectors rejects a
1-dimensional query with the dimension-mismatch error. -/
theorem C2_dimension_mismatch_witness :
    VectorStoreService.search [("a", ⟨"d", [1, 0], []⟩)] [1] 5 0 =
      .error .dimensionMismatch :=
  C2_dimension_mismatch [("a", ⟨"d", [1, 0], []⟩)] [1] 5 0 2 (by decide)
    (by decide) (by decide)

/-- Claim C9: when the query vector or a stored vector has zero norm, the
similarity of that pair is computed as exactly 0 (the zero denominator is
replaced by 1e-10 before dividing, so no division fault occurs); in
particular a search with an all-zero query of matching dimension succeeds
and every returned score is 0. -/
theorem C9_zero_norm_safe (data : List (String × StoreEntry)) (q : List ℚ)
    (k : ℕ) (θ : ℝ)
    (hdim : ∀ p ∈ data, p.2.embedding.length = q.length) :
    (∀ p ∈ data, (normSqQ p.2.embedding = 0 ∨ normSqQ q = 0) →
        score p.2.embedding q = 0) ∧
    ∃ l, VectorStoreService.search data q k θ = .ok l ∧
      (normSqQ q = 0 → ∀ r ∈ l, r.score = 0) := by
  refine ⟨fun p _ hp => score_of_zero_norm _ _ hp, ?_⟩
  cases data with
  | nil => exact ⟨[], rfl, fun _ r hr => absurd hr (List.not_mem_nil r)⟩
  | cons p rest =>
    obtain ⟨c0, e0⟩ := p
    refine ⟨_, search_eq_ok c0 e0 rest q k θ hdim, ?_⟩
    intro hzq r hr
    have h1 : r ∈ List.insertionSort scoreGe (((c0, e0) :: rest).map
        (fun p => ⟨p.1, score p.2.embedding q, p.2.document, p.2.metadata⟩)) :=
      (searchLoop_sublist _ 0).subset hr
    rw [List.mem_insertionSort] at h1
    obtain ⟨p, _, rfl⟩ := List.mem_map.mp h1
    exact score_of_zero_norm _ _ (Or.inr hzq)

/-- Witness: a store holding the unit vector searched with the zero query
returns the entry with score exactly 0 and no error. -/
theorem C9_zero_norm_safe_witness :
    (∀ p ∈ [("a", (⟨"d", [1], []⟩ : StoreEntry))],
      (normSqQ p.2.embedding = 0 ∨ normSqQ [(0 : ℚ)] = 0) →
        score p.2.embedding [(0 : ℚ)] = 0) ∧
    ∃ l, VectorStoreService.search [("a", ⟨"d", [1], []⟩)] [(0 : ℚ)] 10 0 = .ok l ∧
      (normSqQ [(0 : ℚ)] = 0 → ∀ r ∈ l, r.score = 0) :=
  C9_zero_norm_safe [("a", ⟨"d", [1], []⟩)] [0] 10 0 (by decide)

/-- Claim C3: after every successful mutation of the vector index, loading
the on-disk JSON snapshot yields exactly the current in-memory mapping
(the save step dumps the whole dict, so the round trip is the identity). -/
theorem C3_snapshot_agrees (s : VectorStore) (m : StoreMutation)
    (h : mutationOk s m) :
    VectorStoreService.load_snapshot (applyMutation s m).disk =
      (applyMutation s m).data := by
  cases m with
  | upsert cid doc emb meta => rfl
  | del cid =>
    simp only [applyMutation, VectorStoreService.delete_conversation, mutationOk] at h ⊢
    rw [if_pos h]
    rfl

/-- Witness: upserting into the empty store leaves the snapshot equal to
the in-memory mapping. -/
theorem C3_snapshot_agrees_witness :
    VectorStoreService.load_snapshot
        (applyMutation ⟨[], none⟩ (.upsert "c" "doc" [1] [])).disk =
      (applyMutation ⟨[], none⟩ (.upsert "c" "doc" [1] [])).data :=
  C3_snapshot_agrees ⟨[], none⟩ (.upsert "c" "doc" [1] []) trivial

/-- Claim C10: delete returns True exactly when the id was present, and a
delete of an absent id is a complete no-op - the in-memory mapping and the
snapshot file are both left untouched (no save is performed). -/
theorem C10_delete_absent_noop (s : VectorStore) (cid : String) :
    (VectorStoreService.delete_conversation s cid).2 =
      VectorStoreService.hasKey s.data cid ∧
    (VectorStoreService.hasKey s.data cid = false →
      (VectorStoreService.delete_conversation s cid).1 = s) := by
  unfold VectorStoreService.delete_conversation
  cases h : VectorStoreService.hasKey s.data cid <;> simp [h]

/-- Witness: deleting the absent id "z" from a one-entry store with no
snapshot file leaves the state (including the absent snapshot) unchanged. -/
theorem C10_delete_absent_noop_witness :
    (VectorStoreService.delete_conversation ⟨[("a", ⟨"d", [1], []⟩)], none⟩ "z").1 =
      ⟨[("a", ⟨"d", [1], []⟩)], none⟩ :=
  (C10_delete_absent_noop ⟨[("a", ⟨"d", [1], []⟩)], none⟩ "z").2 (by decide)

/-- Claim C4, amended: deleting a stored conversation through the delete
endpoint removes the Conversation row and, by ORM cascade, its Messages
and its Embedding record - but it does not touch the vector index, whose
state is returned unchanged (a subsequent index search can still return
the deleted id). -/
theorem C4_delete_cascade_no_index (st : SystemState) (cid : String)
    (st2 : SystemState) (h : Chats.delete_conversation st cid = .ok st2) :
    (∀ c ∈ st2.db.conversations, c.id ≠ cid) ∧
    (∀ m ∈ st2.db.messages, m.conversation_id ≠ cid) ∧
    (∀ e ∈ st2.db.embeddings, e.conversation_id ≠ cid) ∧
    st2.store = st.store := by
  unfold Chats.delete_conversation at h
  split_ifs at h with hmem
  rw [Except.ok.injEq] at h
  subst h
  refine ⟨?_, ?_, ?_, rfl⟩ <;>
    · intro x hx
      have hp := (List.mem_filter.mp hx).2
      simpa using hp

/-- State used by the C4 example: one conversation "c1" present in all
three tables and in the vector index. -/
def c4StateBefore : SystemState :=
  ⟨⟨[⟨"c1", "T", "s", [], some 0, some "Unclustered", 1⟩],
    [⟨"m1", "c1", "user", "hi", 0⟩],
    [⟨"c1", [1], [0, 0, 0], 1⟩]⟩,
   ⟨[("c1", ⟨"doc", [1], []⟩)], some [("c1", ⟨"doc", [1], []⟩)]⟩⟩

/-- State after deleting "c1": the database rows are gone, the vector
index entry is still there. -/
def c4StateAfter : SystemState :=
  ⟨⟨[], [], []⟩,
   ⟨[("c1", ⟨"doc", [1], []⟩)], some [("c1", ⟨"doc", [1], []⟩)]⟩⟩

/-- Witness: deleting "c1" from the concrete state removes every database
row of "c1" and leaves the vector store unchanged. -/
theorem C4_delete_cascade_no_index_witness :
    (∀ c ∈ c4StateAfter.db.conversations, c.id ≠ "c1") ∧
    (∀ m ∈ c4StateAfter.db.messages, m.conversation_id ≠ "c1") ∧
    (∀ e ∈ c4StateAfter.db.embeddings, e.conversation_id ≠ "c1") ∧
    c4StateAfter.store = c4StateBefore.store :=
  C4_delete_cascade_no_index c4StateBefore "c1" c4StateAfter (by rfl)

/-- Counterexample to claim C4 as stated: after a successful delete of
"c1" through the endpoint, a vector-index search still returns "c1" - the
endpoint never removes the index entry. -/
theorem C4_counterexample :
    Chats.delete_conversation c4StateBefore "c1" = .ok c4StateAfter ∧
    VectorStoreService.search c4StateAfter.store.data [0] 10 0 =
      .ok [⟨"c1", 0, "doc", []⟩] := by
  refine ⟨rfl, ?_⟩
  simp [c4StateAfter, VectorStoreService.search, VectorStoreService.searchLoop,
    List.insertionSort, List.orderedInsert, score_one_zero]

lemma cleanMessage_seq (r : RawMessage) (c : CleanMessage)
    (h : cleanMessage r = some c) : c.sequence_number = r.sequence_number := by
  simp only [cleanMessage] at h
  split_ifs at h
  rw [Option.some.injEq] at h
  subst h
  rfl

lemma filterMap_clean_seq_sublist (msgs : List RawMessage) :
    List.Sublist ((msgs.filterMap cleanMessage).map (fun m => m.sequence_number))
      (msgs.map (fun m => m.sequence_number)) := by
  induction msgs with
  | nil => simp
  | cons r rest ih =>
    cases hc : cleanMessage r with
    | none =>
      rw [List.map_cons, List.filterMap_cons_none hc]
      exact ih.cons _
    | some c =>
      rw [List.map_cons, List.filterMap_cons_some hc, List.map_cons,
        cleanMessage_seq r c hc]
      exact ih.cons₂ _

/-- Claim C5, amended: the normalise step keeps each surviving message
with the sequence number it carried from the parser (no reassignment), so
the persisted numbers form a subsequence of the parsed ones - possibly
with gaps or a nonzero start when messages are dropped during cleaning -
and `message_count` equals the number of stored messages. -/
theorem C5_sequence_numbers (parsedTitle : Option String)
    (msgs : List RawMessage) (n : NormalizedConversation)
    (h : normalize_conversation parsedTitle msgs = .ok n) :
    n.message_count = n.messages.length ∧
    List.Sublist (n.messages.map (fun m => m.sequence_number))
      (msgs.map (fun m => m.sequence_number)) ∧
    (∀ m ∈ n.messages, ∃ r ∈ msgs, cleanMessage r = some m) := by
  simp only [normalize_conversation] at h
  split_ifs at h
  rw [Except.ok.injEq] at h
  subst h
  refine ⟨rfl, filterMap_clean_seq_sublist msgs, ?_⟩
  intro m hm
  obtain ⟨r, hr, hcr⟩ := List.mem_filterMap.mp hm
  exact ⟨r, hr, hcr⟩

/-- Witness: a single clean user message normalises to itself with
message_count 1 and its original sequence number. -/
theorem C5_sequence_numbers_witness :
    (1 = ([(⟨"user", "hi", 0⟩ : CleanMessage)]).length) ∧
    List.Sublist ([(⟨"user", "hi", 0⟩ : CleanMessage)].map
      (fun m => m.sequence_number))
      ([(⟨"user", "hi", 0⟩ : RawMessage)].map (fun m => m.sequence_number)) ∧
    (∀ m ∈ [(⟨"user", "hi", 0⟩ : CleanMessage)],
      ∃ r ∈ [(⟨"user", "hi", 0⟩ : RawMessage)], cleanMessage r = some m) :=
  C5_sequence_numbers none [⟨"user", "hi", 0⟩]
    ⟨"hi", [⟨"user", "hi", 0⟩], 1, 1, 0⟩ (by rfl)

/-- Counterexample to claim C5 as stated: dropping a whitespace-only
middle message leaves the persisted sequence numbers [0, 2], which is not
the dense sequence 0, 1. -/
theorem C5_counterexample :
    normalize_conversation (some "T")
      [⟨"user", "hi", 0⟩, ⟨"user", "   ", 1⟩, ⟨"assistant", "yo", 2⟩] =
      .ok ⟨"T", [⟨"user", "hi", 0⟩, ⟨"assistant", "yo", 2⟩], 2, 1, 1⟩ ∧
    ([(⟨"user", "hi", 0⟩ : CleanMessage), ⟨"assistant", "yo", 2⟩].map
        (fun m => m.sequence_number)) ≠
      (List.range 2).map (fun i => (i : ℤ)) :=
  ⟨rfl, by decide⟩

/-- Claim C6, amended: for a corpus of m >= 2 embeddings the fitted
neighbourhood size n is the default 15 clamped into [2, m-1] with the
lower bound taking precedence - so n = 2 (not <= m-1) at m = 2, n = m-1
for 3 <= m <= 16, and n = 15 for m >= 16 - and the initialisation is
random instead of spectral exactly when m <= n+1. -/
theorem C6_umap_params (m dim n : ℕ) (r : Bool)
    (h : fit_umap_model m dim = .ok (n, r)) :
    2 ≤ n ∧ (3 ≤ m → n ≤ m - 1) ∧ (m = 2 → n = 2) ∧
    (3 ≤ m → m ≤ 16 → n = m - 1) ∧ (16 ≤ m → n = 15) ∧
    (r = true ↔ m ≤ n + 1) := by
  unfold fit_umap_model at h
  split_ifs at h with h1 h2 h3
  rw [Except.ok.injEq, Prod.mk.injEq] at h
  obtain ⟨hn, hr⟩ := h
  subst hn
  subst hr
  refine ⟨?_, ?_, ?_, ?_, ?_, ?_⟩
  · omega
  · omega
  · omega
  · omega
  · omega
  · simp [Nat.not_lt]

/-- Witness: fitting 5 embeddings of dimension 384 uses n_neighbors 4 and
a random initialisation (5 <= 4 + 1). -/
theorem C6_umap_params_witness :
    2 ≤ 4 ∧ (3 ≤ 5 → 4 ≤ 5 - 1) ∧ (5 = 2 → 4 = 2) ∧
    (3 ≤ 5 → 5 ≤ 16 → 4 = 5 - 1) ∧ (16 ≤ 5 → 4 = 15) ∧
    (true = true ↔ 5 ≤ 4 + 1) :=
  C6_umap_params 5 384 4 true (by rfl)

/-- Counterexample to claim C6 as stated: at M = 2 the code fits with
n_neighbors = 2, which is not <= M - 1 = 1 (the lower clamp bound wins). -/
theorem C6_counterexample :
    fit_umap_model 2 384 = .ok (2, true) ∧ ¬ ((2 : ℕ) ≤ 2 - 1) :=
  ⟨rfl, by decide⟩

lemma gatherContentSpec_true (budget : ℕ) :
    ∀ (l : List String) (cur : ℕ),
      gatherContentSpec true budget l cur = gatherContent budget l cur := by
  intro l
  induction l with
  | nil => intro cur; rfl
  | cons c rest ih =>
    intro cur
    simp only [gatherContentSpec, gatherContent, if_true]
    split_ifs <;> simp [ih]

/-- Claim C7, amended: for every conversation (the title is non-empty, as
the normaliser guarantees) the text-preparation function composes, in
order, the Title line, the Topics line when topics are non-empty, the
Summary line when non-empty, and a Content section of message contents
concatenated up to the character budget - where a truncated final message
(suffixed with an ellipsis) is included if and only if strictly more than
100 characters of budget remain, not already at exactly 100. -/
theorem C7_prepare_text (title summary : String) (topics : List String)
    (messages : List String) (maxLen : ℕ) (ht : title ≠ "") :
    prepare_text_for_embedding title summary topics messages maxLen =
      prepareTextSpec true title summary topics messages maxLen := by
  unfold prepare_text_for_embedding prepareTextSpec
  rw [if_pos ht, gatherContentSpec_true]
  cases messages with
  | nil => simp [gatherContent]
  | cons c rest => simp

/-- Witness: a concrete conversation is rendered identically by the code
and by the amended composition rule. -/
theorem C7_prepare_text_witness :
    prepare_text_for_embedding "T" "S" ["t1"] ["hello"] 2000 =
      prepareTextSpec true "T" "S" ["t1"] ["hello"] 2000 :=
  C7_prepare_text "T" "S" ["t1"] ["hello"] 2000 (by decide)

set_option maxRecDepth 8000

/-- Counterexample to claim C7 as stated: with budget 100 and a 200
character message the remaining budget is exactly 100; the code excludes
the partial message (output "Title: T"), while the claimed at-least-100
rule would include 100 characters plus an ellipsis. -/
theorem C7_counterexample :
    prepare_text_for_embedding "T" "" [] [String.mk (List.replicate 200 'x')] 100 ≠
      prepareTextSpec false "T" "" [] [String.mk (List.replicate 200 'x')] 100 := by
  decide

/-- Claim C8: an ingest request with a well-formed filename whose body
fails inside the try block with an internal fault (here: a non-UTF-8 body)
is answered with HTTP 200 and an `IngestResponse` carrying
`success=False` and `error=str(e)` - not with the HTTP 500 the
specification (and the docstring of the endpoint itself) prescribe. -/
theorem C8_internal_fault_http200 (filename : String) (body : List ℕ)
    (pipeline : Except PyExc IngestResponse)
    (hname : strEndsWith filename ".html" = true)
    (hbody : validUtf8 body = false) :
    ingest_single_chat filename body pipeline =
      .ok { success := false, conversation_id := none, title := none,
            message_count := 0, error := some "UnicodeDecodeError" } := by
  simp [ingest_single_chat, hname, hbody]

/-- Witness: the concrete failing input - filename "a.html" with the
single byte 0xff as body - produces the 200-shaped failure response
whatever the rest of the pipeline would have done. -/
theorem C8_internal_fault_http200_witness :
    ingest_single_chat "a.html" [255] (.error (.other "boom")) =
      .ok { success := false, conversation_id := none, title := none,
            message_count := 0, error := some "UnicodeDecodeError" } :=
  C8_internal_fault_http200 "a.html" [255] (.error (.other "boom"))
    (by decide) (by decide)
